import Mathlib

/-!
Verification of the staged audio-enhancement transcription pipeline.

The repository contains several near-identical variants of the pipeline:
  * `src/runpod-kotoba-whisper/handler.py`  (namespace `Kotoba`)
  * `src/runpod-kotoba-whisper/handler-simple.py` (namespace `KotobaSimple`)
  * `src/python-server/server.py`           (namespace `PyServer`)
  * `src/runpod-parakeet/handler.py`        (namespace `Parakeet`)
  * `src/runpod-reazonspeech/handler.py`    (namespace `Reazon`)

Each variant is embedded as a pure Lean function.  The external ML models
(DeepFilterNet `enhance`, nara_wpe `wpe`/`stft`/`istft`, Silero VAD
`get_speech_timestamps`, pyannote diarization, the ASR engines) are opaque
capabilities: they are passed in as function parameters whose `Option`
result records whether the underlying call raised an exception (`none`)
or returned normally (`some _`).  File-system effects are tracked as ghost
data: each run returns, besides its response, the list of temporary file
paths it created and the list of paths its cleanup code actually deleted.

Python string operations used for derived file names (`str.replace`,
`str.strip`, truthiness of optionals) are modelled character-exactly.
Floating-point sample values and timestamps are idealized as rationals.
-/

namespace STT

/-- `hasPrefixChars old s` is true when `old` is an initial run of `s`
(character-wise comparison, as CPython's substring search does). -/
def hasPrefixChars : List Char → List Char → Bool
  | [], _ => true
  | _ :: _, [] => false
  | a :: as, b :: bs => a = b && hasPrefixChars as bs

/-- Work loop of Python's `str.replace`: scans left to right, replacing every
non-overlapping occurrence of `old` and never rescanning replacement text.
`fuel` only forces structural recursion; one unit is spent per consumed
character, so `fuel = s.length` never runs out (each step consumes at least
one character of `s`). -/
def replaceChars (old new : List Char) : Nat → List Char → List Char
  | _, [] => []
  | 0, s => s
  | fuel + 1, c :: rest =>
    if old ≠ [] ∧ hasPrefixChars old (c :: rest) then
      new ++ replaceChars old new fuel ((c :: rest).drop old.length)
    else
      c :: replaceChars old new fuel rest

/-- Python's `s.replace(old, new)` for the non-empty patterns the source
uses (`'.webm'`, `'.wav'`). -/
def pyReplace (s old new : String) : String :=
  ⟨replaceChars old.data new.data s.data.length s.data⟩

/-- Python's `s.strip()`: remove leading and trailing whitespace. -/
def pyStrip (s : String) : String :=
  ⟨((s.data.dropWhile Char.isWhitespace).reverse.dropWhile Char.isWhitespace).reverse⟩

/-- Python's `x if x else 0` on an optional float: `None` and `0.0` are
falsy and give `0`, everything else passes through.  Used for chunk
timestamps (`chunk["timestamp"][i] if chunk["timestamp"][i] else 0`). -/
def pyTruthyOr0 (t : Option ℚ) : ℚ :=
  match t with
  | none => 0
  | some x => if x = 0 then 0 else x

/-- `round(x, 2)` on a timestamp, idealized over ℚ: the result is the
nearest multiple of 1/100 (the source rounds IEEE floats; only exact
half-cent ties, where CPython rounds to even, are idealized away). -/
def roundTo2 (x : ℚ) : ℚ := (round (x * 100) : ℤ) / 100

/-- A raw speaker turn as yielded by `diarization.itertracks(yield_label=True)`
(the pyannote pipeline's output, before the handler rounds it). -/
structure RawTurn where
  speaker : String
  start : ℚ
  stop : ℚ
deriving DecidableEq

/-- A `{"speaker": ..., "start": round(..., 2), "end": round(..., 2)}` entry
as built by every `apply_diarization` in the repository (`stop` stands for
the JSON key `end`, which is reserved in Lean). -/
structure Segment where
  speaker : String
  start : ℚ
  stop : ℚ
deriving DecidableEq

/-- Every `apply_diarization` body builds its segment list with the same
loop; `diarTurnsToSegments` is that loop. -/
def diarTurnsToSegments (turns : List RawTurn) : List Segment :=
  turns.map fun t => ⟨t.speaker, roundTo2 t.start, roundTo2 t.stop⟩

/-- The diarization capability: `none` models `diarization_pipeline is None`
(no `HF_TOKEN` or model-load failure at process start); `some f` is the
loaded pipeline, where `f path = none` models an exception raised inside
the pipeline call and `f path = some turns` a normal return. -/
def DiarCapability : Type := Option (String → Option (List RawTurn))

/-- `apply_diarization` as written identically in
`src/runpod-kotoba-whisper/handler.py`, `src/python-server/server.py`,
`src/runpod-parakeet/handler.py` and `src/runpod-reazonspeech/handler.py`:
unavailable pipeline → `[]`; exception inside the call → caught, `[]`;
otherwise each turn becomes a rounded segment. -/
def apply_diarization (diar : DiarCapability) (audio_path : String) : List Segment :=
  match diar with
  | none => []
  | some pipeline =>
    match pipeline audio_path with
    | none => []
    | some turns => diarTurnsToSegments turns

/-- `np.max(np.abs(z))` over the idealized sample list. -/
def maxAbs (z : List ℚ) : ℚ := z.foldr (fun x acc => max |x| acc) 0

/-- The peak-normalization line `z = z / np.max(np.abs(z)) * 0.9` of
`apply_wpe` (`src/python-server/server.py` line 138 and its copies),
applied to the inverse-STFT of the WPE result. -/
def wpeNormalizeSignal (z : List ℚ) : List ℚ :=
  z.map fun x => x / maxAbs z * (9 / 10)

section MaxAbsLemmas

theorem maxAbs_nonneg (z : List ℚ) : 0 ≤ maxAbs z := by
  induction z with
  | nil => simp [maxAbs]
  | cons x xs ih =>
    simp only [maxAbs, List.foldr] at ih ⊢
    exact le_trans ih (le_max_right _ _)

theorem abs_le_maxAbs {x : ℚ} {z : List ℚ} (hx : x ∈ z) : |x| ≤ maxAbs z := by
  induction z with
  | nil => cases hx
  | cons y ys ih =>
    rcases List.mem_cons.mp hx with h | h
    · subst h; exact le_max_left _ _
    · exact le_trans (ih h) (le_max_right _ _)

theorem maxAbs_map_mul_nonneg (z : List ℚ) (c : ℚ) (hc : 0 ≤ c) :
    maxAbs (z.map fun x => x * c) = maxAbs z * c := by
  induction z with
  | nil => simp [maxAbs]
  | cons x xs ih =>
    simp only [maxAbs, List.map, List.foldr] at ih ⊢
    rw [ih, abs_mul, abs_of_nonneg hc, max_mul_of_nonneg _ _ hc]

end MaxAbsLemmas

/-! ## src/runpod-kotoba-whisper/handler.py -/

namespace Kotoba

/-- One chunk of the ASR pipeline's raw result dict:
`{"text": ..., "timestamp": (start_or_None, end_or_None)}`. -/
structure AsrChunk where
  text : String
  timestamp : Option ℚ × Option ℚ
deriving DecidableEq

/-- Raw result of `pipe(audio, ...)`: the text plus the optional
`"chunks"` key. -/
structure AsrResult where
  text : String
  chunks : Option (List AsrChunk)
deriving DecidableEq

/-- The process-wide model singletons of handler.py, as opaque capabilities.
For the fallible calls, `none` models an exception raised inside the call.
`vad` stands for `read_audio` + `get_speech_timestamps` (exception in either
propagates out of `apply_vad`, which has no internal try/except);
`asr` takes the audio path, language and task fed to `pipe`. -/
structure Models where
  df : String → Option Unit
  wpe : String → Option Unit
  vad : String → Option (List (Nat × Nat))
  diar : DiarCapability
  asr : String → String → String → Option AsrResult

/-- `job["input"]`: absent keys are `none`; the handler applies the
defaults with `.get(key, default)`. -/
structure JobInput where
  audio_base64 : Option String := none
  language : Option String := none
  task : Option String := none
  enable_denoise : Option Bool := none
  enable_dereverberation : Option Bool := none
  enable_vad : Option Bool := none
  enable_diarization : Option Bool := none

/-- A `{"text", "start", "end"}` chunk of the response. -/
structure Chunk where
  text : String
  start : ℚ
  stop : ℚ
deriving DecidableEq

/-- The success response dict of the handler. -/
structure Response where
  transcription : String
  language : String
  model : String
  denoise_applied : Bool
  dereverb_applied : Bool
  vad_applied : Bool
  chunks : List Chunk
  diarization : List Segment
deriving DecidableEq

inductive HandlerResult where
  | ok (r : Response)
  | error (msg : String)
deriving DecidableEq

/-- Result of one request together with ghost file-system data: `created`
lists every temporary file the request wrote (the saved input plus each
stage's output), `removed` the deletions the cleanup code performed in
order, `remaining` what was still on disk afterwards. -/
structure Outcome where
  result : HandlerResult
  created : List String
  removed : List String
  remaining : List String
deriving DecidableEq

/-- The collision-guarded output name of `apply_deepfilter`
(lines 101-103). -/
def denoisedName (audio_path : String) : String :=
  if pyReplace audio_path ".webm" "_denoised.wav" = audio_path then
    audio_path ++ "_denoised.wav"
  else pyReplace audio_path ".webm" "_denoised.wav"

/-- The collision-guarded output name of `apply_wpe` (lines 150-152). -/
def dereverbName (audio_path : String) : String :=
  if pyReplace audio_path ".webm" "_dereverb.wav" = audio_path then
    audio_path ++ "_dereverb.wav"
  else pyReplace audio_path ".webm" "_dereverb.wav"

/-- The collision-guarded output name of `apply_vad` (lines 213-215). -/
def vadName (audio_path : String) : String :=
  if pyReplace (pyReplace audio_path ".webm" "_vad.wav") ".wav" "_vad.wav"
      = audio_path then
    audio_path ++ "_vad.wav"
  else pyReplace (pyReplace audio_path ".webm" "_vad.wav") ".wav" "_vad.wav"

/-- `apply_deepfilter(audio_path)` (lines 71-109): on any internal
exception return the input unchanged; otherwise derive the output name
from the input (with the collision guard) and write there. -/
def apply_deepfilter (df : String → Option Unit) (audio_path : String) : String :=
  match df audio_path with
  | none => audio_path
  | some _ => denoisedName audio_path

/-- Ghost: the file `apply_deepfilter` wrote (`none` when it failed and
wrote nothing). -/
def apply_deepfilter_writes (df : String → Option Unit) (audio_path : String) :
    Option String :=
  match df audio_path with
  | none => none
  | some _ => some (apply_deepfilter df audio_path)

/-- `apply_wpe(audio_path)` (lines 112-158): same fallback contract,
`_dereverb.wav` naming with collision guard. -/
def apply_wpe (wpe : String → Option Unit) (audio_path : String) : String :=
  match wpe audio_path with
  | none => audio_path
  | some _ => dereverbName audio_path

/-- Ghost: the file `apply_wpe` wrote. -/
def apply_wpe_writes (wpe : String → Option Unit) (audio_path : String) :
    Option String :=
  match wpe audio_path with
  | none => none
  | some _ => some (apply_wpe wpe audio_path)

/-- `apply_vad(audio_path)` (lines 186-222): no internal try/except, so an
exception in reading/detection propagates (`none`); an empty timestamp
list returns the original path; otherwise the concatenated speech chunks
are written to the derived `_vad.wav` name (collision-guarded). -/
def apply_vad (vad : String → Option (List (Nat × Nat))) (audio_path : String) :
    Option String :=
  match vad audio_path with
  | none => none
  | some speech_timestamps =>
    if speech_timestamps = [] then some audio_path
    else some (vadName audio_path)

/-- Ghost: the file `apply_vad` wrote. -/
def apply_vad_writes (vad : String → Option (List (Nat × Nat))) (audio_path : String) :
    Option String :=
  match vad audio_path with
  | none => none
  | some [] => none
  | some (_ :: _) => apply_vad vad audio_path

/-- One `if enable_X: p = apply_X(current); if p != current:
audio_to_transcribe = p; X_applied = True` block of the handler.  Returns
(new current path, the Python local `X_path`, the applied flag). -/
def stageStep (enabled : Bool) (stage : String → String) (current : String) :
    String × Option String × Bool :=
  if enabled then
    let p := stage current
    if p = current then (current, some p, false) else (p, some p, true)
  else (current, none, false)

/-- The VAD block: `apply_vad` may raise; the handler's try/except then
keeps the prior current path and leaves `vad_filtered_path = None`. -/
def vadStep (enabled : Bool) (vad : String → Option (List (Nat × Nat)))
    (current : String) : String × Option String × Bool :=
  if enabled then
    match apply_vad vad current with
    | none => (current, none, false)
    | some p => if p = current then (current, some p, false) else (p, some p, true)
  else (current, none, false)

def enDenoise (inp : JobInput) : Bool := inp.enable_denoise.getD true
def enDereverb (inp : JobInput) : Bool := inp.enable_dereverberation.getD true
def enVad (inp : JobInput) : Bool := inp.enable_vad.getD true
def enDiar (inp : JobInput) : Bool := inp.enable_diarization.getD false

/-- `audio_to_transcribe` after the denoise block (the saved input file
`tempPath` is the initial current artifact). -/
def audioAfterDenoise (m : Models) (inp : JobInput) (t : String) : String :=
  (stageStep (enDenoise inp) (apply_deepfilter m.df) t).1

/-- The Python local `denoised_path` at cleanup time. -/
def denoisedPathVar (m : Models) (inp : JobInput) (t : String) : Option String :=
  (stageStep (enDenoise inp) (apply_deepfilter m.df) t).2.1

def denoiseAppliedVar (m : Models) (inp : JobInput) (t : String) : Bool :=
  (stageStep (enDenoise inp) (apply_deepfilter m.df) t).2.2

/-- `audio_to_transcribe` after the dereverberation block. -/
def audioAfterDereverb (m : Models) (inp : JobInput) (t : String) : String :=
  (stageStep (enDereverb inp) (apply_wpe m.wpe) (audioAfterDenoise m inp t)).1

def dereverbPathVar (m : Models) (inp : JobInput) (t : String) : Option String :=
  (stageStep (enDereverb inp) (apply_wpe m.wpe) (audioAfterDenoise m inp t)).2.1

def dereverbAppliedVar (m : Models) (inp : JobInput) (t : String) : Bool :=
  (stageStep (enDereverb inp) (apply_wpe m.wpe) (audioAfterDenoise m inp t)).2.2

/-- `audio_to_transcribe` after the VAD block: the final current artifact. -/
def audioToTranscribe (m : Models) (inp : JobInput) (t : String) : String :=
  (vadStep (enVad inp) m.vad (audioAfterDereverb m inp t)).1

def vadPathVar (m : Models) (inp : JobInput) (t : String) : Option String :=
  (vadStep (enVad inp) m.vad (audioAfterDereverb m inp t)).2.1

def vadAppliedVar (m : Models) (inp : JobInput) (t : String) : Bool :=
  (vadStep (enVad inp) m.vad (audioAfterDereverb m inp t)).2.2

/-- Every temporary file the request writes: the saved input plus each
stage's output file. -/
def createdFiles (m : Models) (inp : JobInput) (t : String) : List String :=
  t :: ((if enDenoise inp then apply_deepfilter_writes m.df t else none).toList ++
    (if enDereverb inp then
      apply_wpe_writes m.wpe (audioAfterDenoise m inp t) else none).toList ++
    (if enVad inp then
      apply_vad_writes m.vad (audioAfterDereverb m inp t) else none).toList)

/-- Deletion of one path guarded by `os.path.exists` on a tracked file
system: the state is (files on disk, deletions so far). -/
def removeIfExists (st : List String × List String) (p : String) :
    List String × List String :=
  if st.1.contains p then (st.1.erase p, st.2 ++ [p]) else st

/-- Python `x != y` where `y : Optional[str]`: a string never equals None. -/
def pyNeOpt (p : String) (o : Option String) : Bool :=
  match o with
  | none => true
  | some q => p ≠ q

/-- The `finally` block (lines 351-360): remove the temp file, then each
stage path if it is set, still exists, and differs from its predecessor
variable. -/
def cleanupBlock (fs : List String) (temp : String)
    (denoised_path dereverb_path vad_filtered_path : Option String) :
    List String × List String :=
  let st := removeIfExists (fs, []) temp
  let st := match denoised_path with
    | some dp => if dp ≠ temp then removeIfExists st dp else st
    | none => st
  let st := match dereverb_path with
    | some dp => if pyNeOpt dp denoised_path then removeIfExists st dp else st
    | none => st
  match vad_filtered_path with
  | some vp => if pyNeOpt vp dereverb_path then removeIfExists st vp else st
  | none => st

/-- The cleanup the handler's `finally` performs on this request's files. -/
def runCleanup (m : Models) (inp : JobInput) (t : String) :
    List String × List String :=
  cleanupBlock (createdFiles m inp t) t (denoisedPathVar m inp t)
    (dereverbPathVar m inp t) (vadPathVar m inp t)

/-- Chunk extraction (lines 324-333). -/
def extractChunks (a : AsrResult) : List Chunk :=
  match a.chunks with
  | none => []
  | some cs => cs.map fun c =>
      ⟨c.text, pyTruthyOr0 c.timestamp.1, pyTruthyOr0 c.timestamp.2⟩

/-- The diarization field: on the saved input `t`, the original
pre-enhancement artifact (line 338: `apply_diarization(temp_audio_path)`). -/
def diarizationField (m : Models) (inp : JobInput) (t : String) : List Segment :=
  if enDiar inp then apply_diarization m.diar t else []

/-- The success response dict (lines 340-349). -/
def successResponse (m : Models) (inp : JobInput) (t : String) (a : AsrResult) :
    Response :=
  { transcription := a.text
    language := inp.language.getD "ja"
    model := "kotoba-whisper-v2.2"
    denoise_applied := denoiseAppliedVar m inp t
    dereverb_applied := dereverbAppliedVar m inp t
    vad_applied := vadAppliedVar m inp t
    chunks := extractChunks a
    diarization := diarizationField m inp t }

/-- `handler(job)` (lines 225-364).  `t` is the fresh path issued by
`tempfile.NamedTemporaryFile(suffix=".webm")` for the decoded audio.
`if not audio_base64` rejects a missing or empty payload before any file
is written; an exception in `pipe` runs the `finally` cleanup and then
surfaces as an error dict from the outer `except`. -/
def handler (m : Models) (inp : JobInput) (t : String) : Outcome :=
  if inp.audio_base64 = none ∨ inp.audio_base64 = some "" then
    { result := .error "No audio_base64 provided", created := [], removed := [],
      remaining := [] }
  else
    match m.asr (audioToTranscribe m inp t) (inp.language.getD "ja")
        (inp.task.getD "transcribe") with
    | none =>
      { result := .error "transcription failed", created := createdFiles m inp t,
        removed := (runCleanup m inp t).2, remaining := (runCleanup m inp t).1 }
    | some a =>
      { result := .ok (successResponse m inp t a), created := createdFiles m inp t,
        removed := (runCleanup m inp t).2, remaining := (runCleanup m inp t).1 }

end Kotoba

/-! ## src/python-server/server.py (POST /transcribe; /transcribe-turbo is
the same code with the other Whisper instance) -/

namespace PyServer

/-- The `info` object and collected `segments` of
`model_large_v3.transcribe(...)`. -/
structure AsrInfo where
  segmentTexts : List String
  language : String
  language_probability : ℚ
  duration : ℚ
deriving DecidableEq

/-- Opaque capabilities of server.py.  `convert i o` is
`convert_webm_to_wav(i, o)`: `false` covers a non-zero ffmpeg exit, the
30-second timeout and any exception (all are caught inside and returned
as `False`); on `true` the canonical mono-16kHz WAV exists at `o`.
`asr p = none` models an exception inside `model.transcribe`. -/
structure Models where
  convert : String → String → Bool
  df : String → Option Unit
  wpe : String → Option Unit
  diar : DiarCapability
  asr : String → Option AsrInfo

/-- The JSON body of the endpoint's response. -/
structure Response where
  text : String
  language : String
  language_probability : ℚ
  duration : ℚ
  denoise_applied : Bool
  dereverb_applied : Bool
deriving DecidableEq

inductive HandlerResult where
  | ok (r : Response)
  | error (msg : String)
deriving DecidableEq

structure Outcome where
  result : HandlerResult
  created : List String
  removed : List String
  remaining : List String
deriving DecidableEq

/-- `apply_deepfilter` (lines 66-102): `'.wav' → '_denoised.wav'` naming,
no collision guard in this variant; any internal exception returns the
input unchanged. -/
def apply_deepfilter (df : String → Option Unit) (audio_path : String) : String :=
  match df audio_path with
  | none => audio_path
  | some _ => pyReplace audio_path ".wav" "_denoised.wav"

/-- Ghost: the file `apply_deepfilter` wrote. -/
def apply_deepfilter_writes (df : String → Option Unit) (audio_path : String) :
    Option String :=
  match df audio_path with
  | none => none
  | some _ => some (pyReplace audio_path ".wav" "_denoised.wav")

/-- `apply_wpe` (lines 105-147): `'.wav' → '_dereverb.wav'`, no guard. -/
def apply_wpe (wpe : String → Option Unit) (audio_path : String) : String :=
  match wpe audio_path with
  | none => audio_path
  | some _ => pyReplace audio_path ".wav" "_dereverb.wav"

/-- Ghost: the file `apply_wpe` wrote. -/
def apply_wpe_writes (wpe : String → Option Unit) (audio_path : String) :
    Option String :=
  match wpe audio_path with
  | none => none
  | some _ => some (pyReplace audio_path ".wav" "_dereverb.wav")

/-- `wav_file_path = tmp_file_path.replace('.webm', '.wav')` (line 252). -/
def wavPath (t : String) : String := pyReplace t ".webm" ".wav"

/-- The `denoised_path` local. -/
def denoisedVar (m : Models) (t : String) : String :=
  apply_deepfilter m.df (wavPath t)

/-- `audio_to_transcribe` after the denoise block (lines 257-261). -/
def audioAfterDenoise (m : Models) (t : String) : String :=
  if denoisedVar m t = wavPath t then wavPath t else denoisedVar m t

def denoiseAppliedVar (m : Models) (t : String) : Bool :=
  denoisedVar m t ≠ wavPath t

/-- The `dereverb_path` local. -/
def dereverbVar (m : Models) (t : String) : String :=
  apply_wpe m.wpe (audioAfterDenoise m t)

/-- `audio_to_transcribe` after the dereverb block (lines 264-267). -/
def audioAfterDereverb (m : Models) (t : String) : String :=
  if dereverbVar m t = audioAfterDenoise m t then audioAfterDenoise m t
  else dereverbVar m t

def dereverbAppliedVar (m : Models) (t : String) : Bool :=
  dereverbVar m t ≠ audioAfterDenoise m t

/-- Files written once conversion succeeded: saved input, normalized WAV,
and each stage's output. -/
def createdFiles (m : Models) (t : String) : List String :=
  t :: wavPath t ::
    ((apply_deepfilter_writes m.df (wavPath t)).toList ++
      (apply_wpe_writes m.wpe (audioAfterDenoise m t)).toList)

/-- The success-path cleanup (lines 286-294): unlink tmp, wav, then the
stage outputs guarded by inequality with their predecessor. -/
def successCleanup (m : Models) (t : String) : List String × List String :=
  let st := Kotoba.removeIfExists (createdFiles m t, []) t
  let st := Kotoba.removeIfExists st (wavPath t)
  let st := if denoisedVar m t ≠ wavPath t then Kotoba.removeIfExists st (denoisedVar m t)
    else st
  if dereverbVar m t ≠ denoisedVar m t then Kotoba.removeIfExists st (dereverbVar m t)
  else st

/-- The `except` path (lines 305-313): only `tmp_file_path` is unlinked. -/
def exceptCleanup (fs : List String) (t : String) : List String × List String :=
  Kotoba.removeIfExists (fs, []) t

/-- `transcription_text` assembly (lines 281-284 + `.strip()`). -/
def collectText (texts : List String) : String :=
  pyStrip (String.join (texts.map (· ++ " ")))

/-- The `/transcribe` endpoint (lines 227-313).  `t` is the path of the
saved upload (`suffix=".webm"`).  A conversion failure raises an
`HTTPException` that the generic `except` turns into the surfaced 500
error after unlinking only the temp file; an ASR exception takes the same
`except` path.  On success all four cleanup statements run. -/
def transcribe (m : Models) (t : String) : Outcome :=
  if ¬ m.convert t (wavPath t) then
    { result := .error "Failed to convert audio format", created := [t],
      removed := (exceptCleanup [t] t).2, remaining := (exceptCleanup [t] t).1 }
  else
    match m.asr (audioAfterDereverb m t) with
    | none =>
      { result := .error "transcription failed", created := createdFiles m t,
        removed := (exceptCleanup (createdFiles m t) t).2,
        remaining := (exceptCleanup (createdFiles m t) t).1 }
    | some info =>
      { result := .ok { text := collectText info.segmentTexts
                        language := info.language
                        language_probability := info.language_probability
                        duration := info.duration
                        denoise_applied := denoiseAppliedVar m t
                        dereverb_applied := dereverbAppliedVar m t }
        created := createdFiles m t, removed := (successCleanup m t).2
        remaining := (successCleanup m t).1 }

end PyServer

/-! ## src/runpod-parakeet/handler.py -/

namespace Parakeet

/-- Opaque capabilities of the parakeet handler.  `vad` stands for
`read_audio` + `get_speech_timestamps` (this variant's `apply_vad` wraps
everything in try/except); `asr` is `model.transcribe([path])` collapsed
to its first transcription. -/
structure Models where
  df : String → Option Unit
  wpe : String → Option Unit
  vad : String → Option (List (Nat × Nat))
  diar : DiarCapability
  asr : String → Option String

structure JobInput where
  audio_base64 : Option String := none
  enable_denoise : Option Bool := none
  enable_dereverberation : Option Bool := none
  enable_vad : Option Bool := none
  enable_diarization : Option Bool := none

structure Response where
  transcription : String
  language : String
  model : String
  denoise_applied : Bool
  dereverb_applied : Bool
  vad_applied : Bool
  diarization : List Segment
deriving DecidableEq

inductive HandlerResult where
  | ok (r : Response)
  | error (msg : String)
deriving DecidableEq

structure Outcome where
  result : HandlerResult
  created : List String
  removed : List String
  remaining : List String
deriving DecidableEq

/-- `apply_deepfilter` (lines 73-92): `'.wav' → '_denoised.wav'`, no
collision guard; exception returns the input. -/
def apply_deepfilter (df : String → Option Unit) (audio_path : String) : String :=
  match df audio_path with
  | none => audio_path
  | some _ => pyReplace audio_path ".wav" "_denoised.wav"

def apply_deepfilter_writes (df : String → Option Unit) (audio_path : String) :
    Option String :=
  match df audio_path with
  | none => none
  | some _ => some (pyReplace audio_path ".wav" "_denoised.wav")

/-- `apply_wpe` (lines 95-112). -/
def apply_wpe (wpe : String → Option Unit) (audio_path : String) : String :=
  match wpe audio_path with
  | none => audio_path
  | some _ => pyReplace audio_path ".wav" "_dereverb.wav"

def apply_wpe_writes (wpe : String → Option Unit) (audio_path : String) :
    Option String :=
  match wpe audio_path with
  | none => none
  | some _ => some (pyReplace audio_path ".wav" "_dereverb.wav")

/-- `apply_vad` (lines 115-128): exception → input unchanged; empty
timestamp list (no speech) → input unchanged; otherwise the speech chunks
are written to the `_vad.wav` name. -/
def apply_vad (vad : String → Option (List (Nat × Nat))) (audio_path : String) :
    String :=
  match vad audio_path with
  | none => audio_path
  | some [] => audio_path
  | some (_ :: _) => pyReplace audio_path ".wav" "_vad.wav"

def apply_vad_writes (vad : String → Option (List (Nat × Nat))) (audio_path : String) :
    Option String :=
  match vad audio_path with
  | none => none
  | some [] => none
  | some (_ :: _) => some (pyReplace audio_path ".wav" "_vad.wav")

def enDenoise (inp : JobInput) : Bool := inp.enable_denoise.getD true
def enDereverb (inp : JobInput) : Bool := inp.enable_dereverberation.getD true
def enVad (inp : JobInput) : Bool := inp.enable_vad.getD true
def enDiar (inp : JobInput) : Bool := inp.enable_diarization.getD false

/-- `current_path` after the denoise block (lines 175-179); `t` is the
saved input (`suffix=".wav"`). -/
def currentAfterDenoise (m : Models) (inp : JobInput) (t : String) : String :=
  if enDenoise inp then apply_deepfilter m.df t else t

def currentAfterDereverb (m : Models) (inp : JobInput) (t : String) : String :=
  if enDereverb inp then apply_wpe m.wpe (currentAfterDenoise m inp t)
  else currentAfterDenoise m inp t

def currentAfterVad (m : Models) (inp : JobInput) (t : String) : String :=
  if enVad inp then apply_vad m.vad (currentAfterDereverb m inp t)
  else currentAfterDereverb m inp t

/-- The `files_to_cleanup` list: starts as `[t]`, each stage's result is
appended when it differs from the current path (lines 170-191). -/
def filesToCleanup (m : Models) (inp : JobInput) (t : String) : List String :=
  [t] ++
    (if enDenoise inp ∧ apply_deepfilter m.df t ≠ t
      then [apply_deepfilter m.df t] else []) ++
    (if enDereverb inp ∧
        apply_wpe m.wpe (currentAfterDenoise m inp t) ≠ currentAfterDenoise m inp t
      then [apply_wpe m.wpe (currentAfterDenoise m inp t)] else []) ++
    (if enVad inp ∧
        apply_vad m.vad (currentAfterDereverb m inp t) ≠ currentAfterDereverb m inp t
      then [apply_vad m.vad (currentAfterDereverb m inp t)] else [])

/-- Every temporary file the request writes. -/
def createdFiles (m : Models) (inp : JobInput) (t : String) : List String :=
  t :: ((if enDenoise inp then apply_deepfilter_writes m.df t else none).toList ++
    (if enDereverb inp then
      apply_wpe_writes m.wpe (currentAfterDenoise m inp t) else none).toList ++
    (if enVad inp then
      apply_vad_writes m.vad (currentAfterDereverb m inp t) else none).toList)

/-- The `finally` loop (lines 215-218): delete each tracked path that
still exists. -/
def runCleanup (m : Models) (inp : JobInput) (t : String) :
    List String × List String :=
  (filesToCleanup m inp t).foldl Kotoba.removeIfExists (createdFiles m inp t, [])

/-- The success response (lines 205-213): note the `*_applied` fields
echo the request's `enable_*` options. -/
def successResponse (m : Models) (inp : JobInput) (t : String) (txt : String) :
    Response :=
  { transcription := txt
    language := "ja"
    model := "parakeet-tdt-0.6b-ja"
    denoise_applied := enDenoise inp
    dereverb_applied := enDereverb inp
    vad_applied := enVad inp
    diarization := if enDiar inp then apply_diarization m.diar t else [] }

/-- `handler(job)` (lines 150-222). -/
def handler (m : Models) (inp : JobInput) (t : String) : Outcome :=
  if inp.audio_base64 = none ∨ inp.audio_base64 = some "" then
    { result := .error "No audio_base64 provided", created := [], removed := [],
      remaining := [] }
  else
    match m.asr (currentAfterVad m inp t) with
    | none =>
      { result := .error "transcription failed", created := createdFiles m inp t,
        removed := (runCleanup m inp t).2, remaining := (runCleanup m inp t).1 }
    | some txt =>
      { result := .ok (successResponse m inp t txt),
        created := createdFiles m inp t, removed := (runCleanup m inp t).2,
        remaining := (runCleanup m inp t).1 }

end Parakeet

/-! ## src/runpod-reazonspeech/handler.py (POST /transcribe) -/

namespace Reazon

/-- The pydantic request model: `audio_base64` is required, the enable
options default as declared (lines 80-85). -/
structure TranscribeRequest where
  audio_base64 : String
  enable_denoise : Bool := true
  enable_dereverberation : Bool := true
  enable_vad : Bool := true
  enable_diarization : Bool := false

/-- The `TranscribeResponse` pydantic model (lines 88-95). -/
structure Response where
  transcription : String
  language : String
  model : String
  denoise_applied : Bool
  dereverb_applied : Bool
  vad_applied : Bool
  diarization : List Segment
deriving DecidableEq

inductive HandlerResult where
  | ok (r : Response)
  | error (msg : String)
deriving DecidableEq

structure Outcome where
  result : HandlerResult
  created : List String
  removed : List String
  remaining : List String
deriving DecidableEq

/-- Opaque capabilities; the stage functions (lines 98-172) are
line-for-line those of the parakeet handler, so they are reused. -/
structure Models where
  df : String → Option Unit
  wpe : String → Option Unit
  vad : String → Option (List (Nat × Nat))
  diar : DiarCapability
  asr : String → Option String

def toParakeet (m : Models) : Parakeet.Models :=
  ⟨m.df, m.wpe, m.vad, m.diar, m.asr⟩

def toJobInput (req : TranscribeRequest) : Parakeet.JobInput :=
  { audio_base64 := some req.audio_base64
    enable_denoise := some req.enable_denoise
    enable_dereverberation := some req.enable_dereverberation
    enable_vad := some req.enable_vad
    enable_diarization := some req.enable_diarization }

/-- The `current_path` chain and `files_to_cleanup` of the endpoint
(lines 185-206) are identical to the parakeet handler's. -/
def currentAfterVad (m : Models) (req : TranscribeRequest) (t : String) : String :=
  Parakeet.currentAfterVad (toParakeet m) (toJobInput req) t

def createdFiles (m : Models) (req : TranscribeRequest) (t : String) : List String :=
  Parakeet.createdFiles (toParakeet m) (toJobInput req) t

def runCleanup (m : Models) (req : TranscribeRequest) (t : String) :
    List String × List String :=
  Parakeet.runCleanup (toParakeet m) (toJobInput req) t

/-- The success response (lines 220-226): again the `*_applied` fields
echo the request's `enable_*` options. -/
def successResponse (m : Models) (req : TranscribeRequest) (t : String)
    (txt : String) : Response :=
  { transcription := txt
    language := "ja"
    model := "reazonspeech-nemo-v2"
    denoise_applied := req.enable_denoise
    dereverb_applied := req.enable_dereverberation
    vad_applied := req.enable_vad
    diarization := if req.enable_diarization then apply_diarization m.diar t else [] }

/-- The `/transcribe` endpoint (lines 175-235); an ASR exception runs the
`finally` cleanup and surfaces as an HTTP 500. -/
def transcribe (m : Models) (req : TranscribeRequest) (t : String) : Outcome :=
  match m.asr (currentAfterVad m req t) with
  | none =>
    { result := .error "Transcription failed", created := createdFiles m req t,
      removed := (runCleanup m req t).2, remaining := (runCleanup m req t).1 }
  | some txt =>
    { result := .ok (successResponse m req t txt),
      created := createdFiles m req t, removed := (runCleanup m req t).2,
      remaining := (runCleanup m req t).1 }

end Reazon

/-! ## src/runpod-kotoba-whisper/handler-simple.py -/

namespace KotobaSimple

structure JobInput where
  audio_base64 : Option String := none
  language : Option String := none
  task : Option String := none

structure Response where
  transcription : String
  language : String
  model : String
deriving DecidableEq

inductive HandlerResult where
  | ok (r : Response)
  | error (msg : String)
deriving DecidableEq

structure Outcome where
  result : HandlerResult
  created : List String
  removed : List String
  remaining : List String
deriving DecidableEq

/-- `handler(job)` (lines 32-83): missing/empty `audio_base64` → error
before any file is written or the model is loaded; otherwise the saved
input is transcribed and removed in the `finally`. -/
def handler (asr : String → String → String → Option String) (inp : JobInput)
    (t : String) : Outcome :=
  if inp.audio_base64 = none ∨ inp.audio_base64 = some "" then
    { result := .error "No audio_base64 provided", created := [], removed := [],
      remaining := [] }
  else
    match asr t (inp.language.getD "ja") (inp.task.getD "transcribe") with
    | none =>
      { result := .error "transcription failed", created := [t]
        removed := (Kotoba.removeIfExists ([t], []) t).2
        remaining := (Kotoba.removeIfExists ([t], []) t).1 }
    | some txt =>
      { result := .ok { transcription := txt
                        language := inp.language.getD "ja"
                        model := "kotoba-whisper-v2.2" }
        created := [t], removed := (Kotoba.removeIfExists ([t], []) t).2
        remaining := (Kotoba.removeIfExists ([t], []) t).1 }

end KotobaSimple

/-! ## Helper lemmas -/

theorem append_nonempty_ne (p s : String) (hs : 0 < s.length) : p ++ s ≠ p := by
  intro he
  have hl := congrArg String.length he
  rw [String.length_append] at hl
  omega

namespace Kotoba

theorem denoisedName_ne (p : String) : denoisedName p ≠ p := by
  unfold denoisedName
  split
  · exact append_nonempty_ne p "_denoised.wav" (by decide)
  · assumption

theorem dereverbName_ne (p : String) : dereverbName p ≠ p := by
  unfold dereverbName
  split
  · exact append_nonempty_ne p "_dereverb.wav" (by decide)
  · assumption

theorem vadName_ne (p : String) : vadName p ≠ p := by
  unfold vadName
  split
  · exact append_nonempty_ne p "_vad.wav" (by decide)
  · assumption

/-- Inversion: a success result comes from a successful ASR call on the
final current artifact, and is exactly the assembled response. -/
theorem handler_ok {m : Models} {inp : JobInput} {t : String} {r : Response}
    (h : (handler m inp t).result = .ok r) :
    ∃ a, m.asr (audioToTranscribe m inp t) (inp.language.getD "ja")
        (inp.task.getD "transcribe") = some a ∧ r = successResponse m inp t a := by
  unfold handler at h
  split at h
  · simp at h
  · split at h
    · simp at h
    · next a ha =>
      refine ⟨a, ha, ?_⟩
      simpa using h.symm

/-- The ghost file fields do not depend on which branch the ASR call
takes. -/
theorem handler_files {m : Models} {inp : JobInput} {t : String}
    (h : ¬(inp.audio_base64 = none ∨ inp.audio_base64 = some "")) :
    (handler m inp t).created = createdFiles m inp t ∧
    (handler m inp t).removed = (runCleanup m inp t).2 ∧
    (handler m inp t).remaining = (runCleanup m inp t).1 := by
  unfold handler
  rw [if_neg h]
  cases m.asr (audioToTranscribe m inp t) (inp.language.getD "ja")
    (inp.task.getD "transcribe") <;> simp

/-- The denoise flag is set iff the stage was enabled and returned a path
different from its input. -/
theorem denoiseApplied_iff (m : Models) (inp : JobInput) (t : String) :
    denoiseAppliedVar m inp t = true ↔
      enDenoise inp = true ∧ apply_deepfilter m.df t ≠ t := by
  unfold denoiseAppliedVar stageStep
  cases hE : enDenoise inp <;>
    by_cases hp : apply_deepfilter m.df t = t <;> simp [hp]

theorem dereverbApplied_iff (m : Models) (inp : JobInput) (t : String) :
    dereverbAppliedVar m inp t = true ↔
      enDereverb inp = true ∧
        apply_wpe m.wpe (audioAfterDenoise m inp t) ≠ audioAfterDenoise m inp t := by
  unfold dereverbAppliedVar stageStep
  cases hE : enDereverb inp <;>
    by_cases hp : apply_wpe m.wpe (audioAfterDenoise m inp t) = audioAfterDenoise m inp t <;>
    simp [hp]

theorem vadApplied_iff (m : Models) (inp : JobInput) (t : String) :
    vadAppliedVar m inp t = true ↔
      enVad inp = true ∧
        ∃ p, apply_vad m.vad (audioAfterDereverb m inp t) = some p ∧
          p ≠ audioAfterDereverb m inp t := by
  unfold vadAppliedVar vadStep
  cases hE : enVad inp
  · simp
  · cases hv : apply_vad m.vad (audioAfterDereverb m inp t) with
    | none => simp [hv]
    | some p => by_cases hp : p = audioAfterDereverb m inp t <;> simp [hv, hp]

end Kotoba

namespace Parakeet

/-- Inversion for the parakeet handler. -/
theorem pkHandler_ok {m : Models} {inp : JobInput} {t : String} {r : Response}
    (h : (handler m inp t).result = .ok r) :
    ∃ txt, m.asr (currentAfterVad m inp t) = some txt ∧
      r = successResponse m inp t txt := by
  unfold handler at h
  split at h
  · simp at h
  · split at h
    · simp at h
    · next txt ha =>
      refine ⟨txt, ha, ?_⟩
      simpa using h.symm

end Parakeet

namespace PyServer

/-- Inversion for the python-server endpoint. -/
theorem transcribe_ok {m : Models} {t : String} {r : Response}
    (h : (transcribe m t).result = .ok r) :
    m.convert t (wavPath t) = true ∧
    ∃ info, m.asr (audioAfterDereverb m t) = some info ∧
      r = { text := collectText info.segmentTexts
            language := info.language
            language_probability := info.language_probability
            duration := info.duration
            denoise_applied := denoiseAppliedVar m t
            dereverb_applied := dereverbAppliedVar m t } := by
  unfold transcribe at h
  split at h
  · simp at h
  · next hc =>
    refine ⟨by simpa using hc, ?_⟩
    split at h
    · simp at h
    · next info ha =>
      refine ⟨info, ha, ?_⟩
      simpa using h.symm

end PyServer

namespace Reazon

/-- Inversion for the reazonspeech endpoint. -/
theorem rzTranscribe_ok {m : Models} {req : TranscribeRequest} {t : String}
    {r : Response} (h : (transcribe m req t).result = .ok r) :
    ∃ txt, m.asr (currentAfterVad m req t) = some txt ∧
      r = successResponse m req t txt := by
  unfold transcribe at h
  split at h
  · simp at h
  · next txt ha =>
    refine ⟨txt, ha, ?_⟩
    simpa using h.symm

end Reazon

namespace Kotoba

/-- Erase the diarization field of a result, keeping everything else: two
runs agree up to `scrubDiarization` exactly when the diarization branch
influenced nothing but its own output field. -/
def scrubDiarization : HandlerResult → HandlerResult
  | .ok r => .ok { r with diarization := [] }
  | .error e => .error e

end Kotoba

namespace Kotoba

/-- On success, the response's diarization field is exactly the diarizer
run on the saved input (pre-enhancement) artifact. -/
theorem ok_diarization {m : Models} {inp : JobInput} {t : String} {r : Response}
    (h : (handler m inp t).result = .ok r) :
    r.diarization = diarizationField m inp t := by
  obtain ⟨a, _, rfl⟩ := handler_ok h
  rfl

end Kotoba

namespace Parakeet

/-- On success, the response's diarization field is exactly the diarizer
run on the saved input (pre-enhancement) artifact. -/
theorem pkOk_diarization {m : Models} {inp : JobInput} {t : String} {r : Response}
    (h : (handler m inp t).result = .ok r) :
    r.diarization = (if enDiar inp then apply_diarization m.diar t else []) := by
  obtain ⟨txt, _, rfl⟩ := pkHandler_ok h
  rfl

end Parakeet

namespace Kotoba

/-- Two inputs that lead to the same final artifact and the same assembled
response produce the same result. -/
theorem result_congr (m : Models) (inp inp' : JobInput) (t : String)
    (hAudio : inp.audio_base64 = inp'.audio_base64)
    (hLang : inp.language = inp'.language)
    (hTask : inp.task = inp'.task)
    (hAtt : audioToTranscribe m inp t = audioToTranscribe m inp' t)
    (hResp : ∀ a, successResponse m inp t a = successResponse m inp' t a) :
    (handler m inp t).result = (handler m inp' t).result := by
  unfold handler
  by_cases hA : inp.audio_base64 = none ∨ inp.audio_base64 = some ""
  · rw [if_pos hA, if_pos (by rw [← hAudio]; exact hA)]
  · rw [if_neg hA, if_neg (by rw [← hAudio]; exact hA),
      ← hAtt, ← hLang, ← hTask]
    cases ha : m.asr (audioToTranscribe m inp t) (inp.language.getD "ja")
      (inp.task.getD "transcribe") <;> simp [ha, hResp]

end Kotoba

namespace Kotoba

/-- The three possible observable outcomes of the denoise block: disabled,
model failed (path variable aliases the input), or applied (a fresh file
at the guarded name). -/
theorem denoiseObs (m : Models) (inp : JobInput) (t : String) :
    (audioAfterDenoise m inp t = t ∧ denoisedPathVar m inp t = none ∧
      (if enDenoise inp then apply_deepfilter_writes m.df t else none) = none) ∨
    (audioAfterDenoise m inp t = t ∧ denoisedPathVar m inp t = some t ∧
      (if enDenoise inp then apply_deepfilter_writes m.df t else none) = none) ∨
    (audioAfterDenoise m inp t = denoisedName t ∧
      denoisedPathVar m inp t = some (denoisedName t) ∧
      (if enDenoise inp then apply_deepfilter_writes m.df t else none) =
        some (denoisedName t)) := by
  cases hE : enDenoise inp
  · left
    simp [audioAfterDenoise, denoisedPathVar, stageStep, hE]
  · cases hdf : m.df t
    · right; left
      simp [audioAfterDenoise, denoisedPathVar, stageStep, hE,
        apply_deepfilter, apply_deepfilter_writes, hdf]
    · right; right
      simp [audioAfterDenoise, denoisedPathVar, stageStep, hE,
        apply_deepfilter, apply_deepfilter_writes, hdf, denoisedName_ne t]

/-- The same three-way case split for the dereverberation block, relative
to its input artifact. -/
theorem dereverbObs (m : Models) (inp : JobInput) (t : String) :
    (audioAfterDereverb m inp t = audioAfterDenoise m inp t ∧
      dereverbPathVar m inp t = none ∧
      (if enDereverb inp then
        apply_wpe_writes m.wpe (audioAfterDenoise m inp t) else none) = none) ∨
    (audioAfterDereverb m inp t = audioAfterDenoise m inp t ∧
      dereverbPathVar m inp t = some (audioAfterDenoise m inp t) ∧
      (if enDereverb inp then
        apply_wpe_writes m.wpe (audioAfterDenoise m inp t) else none) = none) ∨
    (audioAfterDereverb m inp t = dereverbName (audioAfterDenoise m inp t) ∧
      dereverbPathVar m inp t = some (dereverbName (audioAfterDenoise m inp t)) ∧
      (if enDereverb inp then
        apply_wpe_writes m.wpe (audioAfterDenoise m inp t) else none) =
        some (dereverbName (audioAfterDenoise m inp t))) := by
  cases hE : enDereverb inp
  · left
    simp [audioAfterDereverb, dereverbPathVar, stageStep, hE]
  · cases hwpe : m.wpe (audioAfterDenoise m inp t)
    · right; left
      simp [audioAfterDereverb, dereverbPathVar, stageStep, hE,
        apply_wpe, apply_wpe_writes, hwpe]
    · right; right
      simp [audioAfterDereverb, dereverbPathVar, stageStep, hE,
        apply_wpe, apply_wpe_writes, hwpe,
        dereverbName_ne (audioAfterDenoise m inp t)]

/-- The three-way case split for the VAD block: disabled or raising (no
path variable), no speech detected (variable aliases the input), or
applied. -/
theorem vadObs (m : Models) (inp : JobInput) (t : String) :
    (audioToTranscribe m inp t = audioAfterDereverb m inp t ∧
      vadPathVar m inp t = none ∧
      (if enVad inp then
        apply_vad_writes m.vad (audioAfterDereverb m inp t) else none) = none) ∨
    (audioToTranscribe m inp t = audioAfterDereverb m inp t ∧
      vadPathVar m inp t = some (audioAfterDereverb m inp t) ∧
      (if enVad inp then
        apply_vad_writes m.vad (audioAfterDereverb m inp t) else none) = none) ∨
    (audioToTranscribe m inp t = vadName (audioAfterDereverb m inp t) ∧
      vadPathVar m inp t = some (vadName (audioAfterDereverb m inp t)) ∧
      (if enVad inp then
        apply_vad_writes m.vad (audioAfterDereverb m inp t) else none) =
        some (vadName (audioAfterDereverb m inp t))) := by
  cases hE : enVad inp
  · left
    simp [audioToTranscribe, vadPathVar, vadStep, hE]
  · cases hv : m.vad (audioAfterDereverb m inp t) with
    | none =>
      left
      simp [audioToTranscribe, vadPathVar, vadStep, hE,
        apply_vad, apply_vad_writes, hv]
    | some ts =>
      cases ts with
      | nil =>
        right; left
        simp [audioToTranscribe, vadPathVar, vadStep, hE,
          apply_vad, apply_vad_writes, hv]
      | cons x xs =>
        right; right
        simp [audioToTranscribe, vadPathVar, vadStep, hE,
          apply_vad, apply_vad_writes, hv,
          vadName_ne (audioAfterDereverb m inp t)]

end Kotoba

namespace PyServer

/-- Observable outcomes of the python-server denoise stage. -/
theorem denObs (m : Models) (t : String) :
    (denoisedVar m t = wavPath t ∧
      apply_deepfilter_writes m.df (wavPath t) = none) ∨
    (denoisedVar m t = pyReplace (wavPath t) ".wav" "_denoised.wav" ∧
      apply_deepfilter_writes m.df (wavPath t) =
        some (pyReplace (wavPath t) ".wav" "_denoised.wav")) := by
  cases hdf : m.df (wavPath t)
  · left
    simp [denoisedVar, apply_deepfilter, apply_deepfilter_writes, hdf]
  · right
    simp [denoisedVar, apply_deepfilter, apply_deepfilter_writes, hdf]

/-- Observable outcomes of the python-server dereverb stage. -/
theorem wpeObs (m : Models) (t : String) :
    (dereverbVar m t = audioAfterDenoise m t ∧
      apply_wpe_writes m.wpe (audioAfterDenoise m t) = none) ∨
    (dereverbVar m t = pyReplace (audioAfterDenoise m t) ".wav" "_dereverb.wav" ∧
      apply_wpe_writes m.wpe (audioAfterDenoise m t) =
        some (pyReplace (audioAfterDenoise m t) ".wav" "_dereverb.wav")) := by
  cases hwpe : m.wpe (audioAfterDenoise m t)
  · left
    simp [dereverbVar, apply_wpe, apply_wpe_writes, hwpe]
  · right
    simp [dereverbVar, apply_wpe, apply_wpe_writes, hwpe]

/-- On the success path the ghost file fields are the created list and the
success-cleanup state. -/
theorem transcribe_ok_files {m : Models} {t : String} {r : Response}
    (h : (transcribe m t).result = .ok r) :
    (transcribe m t).created = createdFiles m t ∧
    (transcribe m t).removed = (successCleanup m t).2 ∧
    (transcribe m t).remaining = (successCleanup m t).1 := by
  unfold transcribe at h ⊢
  split at h
  · simp at h
  · next hc =>
    rw [if_neg hc]
    split at h
    · simp at h
    · next info ha =>
      exact ⟨rfl, rfl, rfl⟩

end PyServer

/-! ## Concrete fixtures used by witnesses and counterexamples -/

namespace Fixtures

/-- Kotoba models where every enhancement model call raises and the ASR
succeeds. -/
def kAsrOk : Kotoba.Models :=
  ⟨fun _ => none, fun _ => none, fun _ => none, none,
    fun _ _ _ => some ⟨"hello", none⟩⟩

/-- Kotoba models where everything, ASR included, raises. -/
def kFailAll : Kotoba.Models :=
  ⟨fun _ => none, fun _ => none, fun _ => none, none, fun _ _ _ => none⟩

def kInpNoAudio : Kotoba.JobInput := {}

def pInpNoAudio : Parakeet.JobInput := {}

def sInpNoAudio : KotobaSimple.JobInput := {}

/-- Parakeet models where every enhancement model call raises and the ASR
succeeds. -/
def pAsrOk : Parakeet.Models :=
  ⟨fun _ => none, fun _ => none, fun _ => none, none, fun _ => some "hello"⟩

def kInpAudio : Kotoba.JobInput := { audio_base64 := some "QUJD" }

def pInpAudio : Parakeet.JobInput := { audio_base64 := some "QUJD" }

/-- python-server models with a succeeding converter and ASR but a failing
DeepFilterNet call. -/
def pyDfFail : PyServer.Models :=
  ⟨fun _ _ => true, fun _ => none, fun _ => none, none,
    fun _ => some ⟨["a"], "ja", 1, 2⟩⟩

/-- Kotoba models where the denoise model succeeds, the rest raise, and
the ASR succeeds. -/
def kDenOk : Kotoba.Models :=
  ⟨fun _ => some (), fun _ => none, fun _ => none, none,
    fun _ _ _ => some ⟨"hello", none⟩⟩

/-- Kotoba input with audio and denoise disabled. -/
def kInpNoDen : Kotoba.JobInput :=
  { audio_base64 := some "QUJD", enable_denoise := some false }

/-- Kotoba models where the VAD finds no speech, the other enhancement
calls raise, and the ASR succeeds. -/
def kVadEmpty : Kotoba.Models :=
  ⟨fun _ => none, fun _ => none, fun _ => some [], none,
    fun _ _ _ => some ⟨"hello", none⟩⟩

/-- Parakeet models where the VAD finds no speech, the other enhancement
calls raise, and the ASR succeeds. -/
def pVadEmpty : Parakeet.Models :=
  ⟨fun _ => none, fun _ => none, fun _ => some [], none, fun _ => some "hello"⟩

/-- python-server models where conversion and denoise succeed, the
dereverb model fails, and the transcription call raises. -/
def pyLeak : PyServer.Models :=
  ⟨fun _ _ => true, fun _ => some (), fun _ => none, none, fun _ => none⟩

end Fixtures

/-! ## Claims -/

/-- C10: a job input whose `audio_base64` is missing or empty makes the
handler return an error result immediately: no temporary file is created
and no enhancement or transcription model is invoked (the outcome is a
constant, independent of every model capability).  Holds for the
kotoba-whisper handler, the simplified handler and the parakeet handler. -/
theorem C10_missing_audio_short_circuits
    (m : Kotoba.Models) (inp : Kotoba.JobInput)
    (m' : Parakeet.Models) (inp' : Parakeet.JobInput)
    (asr : String → String → String → Option String)
    (inps : KotobaSimple.JobInput) (t : String)
    (h : inp.audio_base64 = none ∨ inp.audio_base64 = some "")
    (h' : inp'.audio_base64 = none ∨ inp'.audio_base64 = some "")
    (hs : inps.audio_base64 = none ∨ inps.audio_base64 = some "") :
    Kotoba.handler m inp t =
      ⟨.error "No audio_base64 provided", [], [], []⟩ ∧
    Parakeet.handler m' inp' t =
      ⟨.error "No audio_base64 provided", [], [], []⟩ ∧
    KotobaSimple.handler asr inps t =
      ⟨.error "No audio_base64 provided", [], [], []⟩ := by
  refine ⟨?_, ?_, ?_⟩
  · unfold Kotoba.handler; rw [if_pos h]
  · unfold Parakeet.handler; rw [if_pos h']
  · unfold KotobaSimple.handler; rw [if_pos hs]

/-- Witness for C10 at a concrete empty-audio input. -/
theorem C10_missing_audio_short_circuits_witness :
    Kotoba.handler Fixtures.kAsrOk Fixtures.kInpNoAudio "/tmp/audio0.webm" =
      ⟨.error "No audio_base64 provided", [], [], []⟩ ∧
    Parakeet.handler Fixtures.pAsrOk Fixtures.pInpNoAudio "/tmp/audio0.wav" =
      ⟨.error "No audio_base64 provided", [], [], []⟩ ∧
    KotobaSimple.handler (fun _ _ _ => none) Fixtures.sInpNoAudio "/tmp/audio0.webm" =
      ⟨.error "No audio_base64 provided", [], [], []⟩ := by
  have h1 := C10_missing_audio_short_circuits Fixtures.kAsrOk Fixtures.kInpNoAudio
    Fixtures.pAsrOk Fixtures.pInpNoAudio (fun _ _ _ => none) Fixtures.sInpNoAudio
    "/tmp/audio0.webm" (Or.inl rfl) (Or.inl rfl) (Or.inl rfl)
  have h2 := C10_missing_audio_short_circuits Fixtures.kAsrOk Fixtures.kInpNoAudio
    Fixtures.pAsrOk Fixtures.pInpNoAudio (fun _ _ _ => none) Fixtures.sInpNoAudio
    "/tmp/audio0.wav" (Or.inl rfl) (Or.inl rfl) (Or.inl rfl)
  exact ⟨h1.1, h2.2.1, h1.2.2⟩

/-- C9: the dereverberation stage's output signal is the inverse-STFT of
the WPE result scaled by `0.9 / max |sample|`, so whenever the signal has
a non-zero sample the written artifact's peak absolute magnitude is
exactly 0.9. -/
theorem C9_dereverb_peak_normalization (z : List ℚ) (hz : ∃ x ∈ z, x ≠ 0) :
    maxAbs (wpeNormalizeSignal z) = 9 / 10 := by
  obtain ⟨x, hxz, hx0⟩ := hz
  have hM : 0 < maxAbs z := lt_of_lt_of_le (abs_pos.mpr hx0) (abs_le_maxAbs hxz)
  have hfun : (fun y : ℚ => y / maxAbs z * (9 / 10)) =
      fun y : ℚ => y * (9 / 10 / maxAbs z) := by
    funext y
    ring
  have hrw : wpeNormalizeSignal z = z.map fun y => y * (9 / 10 / maxAbs z) := by
    unfold wpeNormalizeSignal
    rw [hfun]
  rw [hrw, maxAbs_map_mul_nonneg _ _ (by positivity)]
  rw [mul_comm]
  exact div_mul_cancel₀ _ hM.ne'

/-- Witness for C9 on a concrete non-zero signal. -/
theorem C9_dereverb_peak_normalization_witness :
    (∃ x ∈ ([1/2, -2, 1] : List ℚ), x ≠ 0) ∧
    maxAbs (wpeNormalizeSignal [1/2, -2, 1]) = 9 / 10 :=
  ⟨⟨-2, by norm_num, by norm_num⟩,
    C9_dereverb_peak_normalization _ ⟨-2, by norm_num, by norm_num⟩⟩

/-- C8: if format conversion fails (non-zero ffmpeg exit, 30s timeout, or
an exception — all collapsed into `convert = false`), the request surfaces
a fatal error, leaves no artifact behind, and the whole outcome is
independent of the transcription engine (so transcription is never
attempted and no partial text can be returned). -/
theorem C8_conversion_failure_is_fatal (m : PyServer.Models) (t : String)
    (hconv : m.convert t (PyServer.wavPath t) = false) :
    (PyServer.transcribe m t).result = .error "Failed to convert audio format" ∧
    (PyServer.transcribe m t).remaining = [] ∧
    ∀ asr' : String → Option PyServer.AsrInfo,
      PyServer.transcribe { m with asr := asr' } t = PyServer.transcribe m t := by
  refine ⟨?_, ?_, ?_⟩
  · unfold PyServer.transcribe
    simp [hconv]
  · unfold PyServer.transcribe
    simp [hconv, PyServer.exceptCleanup, Kotoba.removeIfExists]
  · intro asr'
    unfold PyServer.transcribe
    simp [hconv]

/-- Witness for C8 with a concretely failing converter. -/
theorem C8_conversion_failure_is_fatal_witness :
    (PyServer.transcribe ⟨fun _ _ => false, fun _ => some (), fun _ => some (),
        none, fun _ => some ⟨["a"], "ja", 1, 2⟩⟩ "/tmp/audio0.webm").result =
      .error "Failed to convert audio format" :=
  (C8_conversion_failure_is_fatal _ "/tmp/audio0.webm" rfl).1

/-- `round(·, 2)` is monotone, so rounding both endpoints preserves
`start ≤ end` and sortedness by start. -/
theorem roundTo2_mono {a b : ℚ} (h : a ≤ b) : roundTo2 a ≤ roundTo2 b := by
  unfold roundTo2
  have hr : round (a * 100) ≤ round (b * 100) := by
    rw [round_eq, round_eq]
    exact Int.floor_mono (by linarith)
  have hc : ((round (a * 100) : ℤ) : ℚ) ≤ ((round (b * 100) : ℤ) : ℚ) := by
    exact_mod_cast hr
  linarith

/-- C7: provided the underlying pyannote pipeline yields turns with
`start ≤ end` in chronological order (its documented behavior; the model
itself is an opaque external capability), every segment `apply_diarization`
returns satisfies `start ≤ end`, both timestamps are exact multiples of
1/100 (rounded to two decimal places), and the list is sorted ascending by
start.  The unavailable/failing cases return `[]`, for which all three
properties hold vacuously. -/
theorem C7_diarization_segments_wellformed (d : DiarCapability) (p : String)
    (hwf : ∀ f, d = some f → ∀ turns, f p = some turns →
      (∀ tu ∈ turns, tu.start ≤ tu.stop) ∧
      turns.Pairwise (fun a b => a.start ≤ b.start)) :
    (∀ s ∈ apply_diarization d p,
      s.start ≤ s.stop ∧ (∃ n : ℤ, s.start = (n : ℚ) / 100) ∧
        ∃ n : ℤ, s.stop = (n : ℚ) / 100) ∧
    (apply_diarization d p).Pairwise (fun a b => a.start ≤ b.start) := by
  cases d with
  | none => simp [apply_diarization]
  | some f =>
    cases hf : f p with
    | none => simp [apply_diarization, hf]
    | some turns =>
      obtain ⟨h1, h2⟩ := hwf f rfl turns hf
      simp only [apply_diarization, hf]
      constructor
      · intro s hs
        unfold diarTurnsToSegments at hs
        simp only [List.mem_map] at hs
        obtain ⟨tu, htu, rfl⟩ := hs
        exact ⟨roundTo2_mono (h1 tu htu), ⟨round (tu.start * 100), rfl⟩,
          ⟨round (tu.stop * 100), rfl⟩⟩
      · unfold diarTurnsToSegments
        rw [List.pairwise_map]
        exact h2.imp fun hab => roundTo2_mono hab

/-- Witness for C7 on a concrete two-speaker diarization run. -/
theorem C7_diarization_segments_wellformed_witness :
    (∀ s ∈ apply_diarization
        (some fun _ => some [⟨"SPEAKER_00", 0, 1/2⟩, ⟨"SPEAKER_01", 1/3, 2⟩])
        "/tmp/audio0.webm",
      s.start ≤ s.stop ∧ (∃ n : ℤ, s.start = (n : ℚ) / 100) ∧
        ∃ n : ℤ, s.stop = (n : ℚ) / 100) ∧
    (apply_diarization
        (some fun _ => some [⟨"SPEAKER_00", 0, 1/2⟩, ⟨"SPEAKER_01", 1/3, 2⟩])
        "/tmp/audio0.webm").Pairwise (fun a b => a.start ≤ b.start) := by
  refine C7_diarization_segments_wellformed _ _ ?_
  intro f hf turns ht
  injection hf with hf'
  subst hf'
  injection ht with ht'
  subst ht'
  constructor
  · simp only [List.forall_mem_cons, List.not_mem_nil]
    norm_num
  · simp only [List.pairwise_cons, List.mem_cons, List.not_mem_nil]
    norm_num

/-- C6: an unavailable diarization capability always yields an empty
segment list; an internal diarizer exception is caught and also yields
`[]`; and the diarization capability is invisible to the rest of the
pipeline — two kotoba-whisper runs whose models differ only in the
diarization capability produce identical file activity and identical
results apart from the diarization field itself. -/
theorem C6_diarization_never_fails
    : (∀ p, apply_diarization none p = []) ∧
    (∀ (f : String → Option (List RawTurn)) p, f p = none →
      apply_diarization (some f) p = []) ∧
    (∀ (m m' : Kotoba.Models) (inp : Kotoba.JobInput) (t : String),
      m.df = m'.df → m.wpe = m'.wpe → m.vad = m'.vad → m.asr = m'.asr →
      Kotoba.scrubDiarization (Kotoba.handler m inp t).result =
        Kotoba.scrubDiarization (Kotoba.handler m' inp t).result ∧
      (Kotoba.handler m inp t).created = (Kotoba.handler m' inp t).created ∧
      (Kotoba.handler m inp t).removed = (Kotoba.handler m' inp t).removed) := by
  refine ⟨fun p => rfl, fun f p hf => by simp [apply_diarization, hf], ?_⟩
  intro m m' inp t h1 h2 h3 h4
  obtain ⟨df, wpe, vad, d, asr⟩ := m
  obtain ⟨df', wpe', vad', d', asr'⟩ := m'
  simp only at h1 h2 h3 h4
  subst h1 h2 h3 h4
  by_cases hA : inp.audio_base64 = none ∨ inp.audio_base64 = some ""
  · simp [Kotoba.handler, hA, Kotoba.scrubDiarization]
  · unfold Kotoba.handler
    rw [if_neg hA, if_neg hA,
      show Kotoba.audioToTranscribe ⟨df, wpe, vad, d', asr⟩ inp t =
        Kotoba.audioToTranscribe ⟨df, wpe, vad, d, asr⟩ inp t from rfl,
      show Kotoba.createdFiles ⟨df, wpe, vad, d', asr⟩ inp t =
        Kotoba.createdFiles ⟨df, wpe, vad, d, asr⟩ inp t from rfl,
      show Kotoba.runCleanup ⟨df, wpe, vad, d', asr⟩ inp t =
        Kotoba.runCleanup ⟨df, wpe, vad, d, asr⟩ inp t from rfl]
    cases ha : asr (Kotoba.audioToTranscribe ⟨df, wpe, vad, d, asr⟩ inp t)
      (inp.language.getD "ja") (inp.task.getD "transcribe") <;>
      simp [ha, Kotoba.scrubDiarization, Kotoba.successResponse,
        show Kotoba.denoiseAppliedVar ⟨df, wpe, vad, d', asr⟩ inp t =
          Kotoba.denoiseAppliedVar ⟨df, wpe, vad, d, asr⟩ inp t from rfl,
        show Kotoba.dereverbAppliedVar ⟨df, wpe, vad, d', asr⟩ inp t =
          Kotoba.dereverbAppliedVar ⟨df, wpe, vad, d, asr⟩ inp t from rfl,
        show Kotoba.vadAppliedVar ⟨df, wpe, vad, d', asr⟩ inp t =
          Kotoba.vadAppliedVar ⟨df, wpe, vad, d, asr⟩ inp t from rfl]

/-- Witness for C6's failing-diarizer conjunct at a concrete path. -/
theorem C6_diarization_never_fails_witness :
    apply_diarization (some fun _ => none) "/tmp/audio0.webm" = [] ∧
    Kotoba.scrubDiarization
        (Kotoba.handler Fixtures.kAsrOk Fixtures.kInpAudio "/tmp/audio0.webm").result =
      Kotoba.scrubDiarization
        (Kotoba.handler
          ⟨Fixtures.kAsrOk.df, Fixtures.kAsrOk.wpe, Fixtures.kAsrOk.vad,
            some fun _ => none, Fixtures.kAsrOk.asr⟩
          Fixtures.kInpAudio "/tmp/audio0.webm").result := by
  refine ⟨C6_diarization_never_fails.2.1 _ "/tmp/audio0.webm" rfl, ?_⟩
  exact (C6_diarization_never_fails.2.2 Fixtures.kAsrOk
    ⟨Fixtures.kAsrOk.df, Fixtures.kAsrOk.wpe, Fixtures.kAsrOk.vad,
      some fun _ => none, Fixtures.kAsrOk.asr⟩
    Fixtures.kInpAudio "/tmp/audio0.webm" rfl rfl rfl rfl).1

/-- C5: with diarization enabled, the diarizer runs on the saved input
file — the original pre-enhancement artifact — so two successful runs of
the same input whose models or options differ only in the enhancement
stages (denoise, dereverberation, VAD: different enables, different
successes or failures, even a different ASR) return identical diarization
segments.  Holds for the kotoba-whisper and parakeet handlers. -/
theorem C5_diarization_uses_original_artifact :
    (∀ (m m' : Kotoba.Models) (inp inp' : Kotoba.JobInput) (t : String)
      (r r' : Kotoba.Response),
      m.diar = m'.diar →
      inp.enable_diarization = inp'.enable_diarization →
      (Kotoba.handler m inp t).result = .ok r →
      (Kotoba.handler m' inp' t).result = .ok r' →
      r.diarization =
        (if Kotoba.enDiar inp then apply_diarization m.diar t else []) ∧
      r.diarization = r'.diarization) ∧
    (∀ (m m' : Parakeet.Models) (inp inp' : Parakeet.JobInput) (t : String)
      (r r' : Parakeet.Response),
      m.diar = m'.diar →
      inp.enable_diarization = inp'.enable_diarization →
      (Parakeet.handler m inp t).result = .ok r →
      (Parakeet.handler m' inp' t).result = .ok r' →
      r.diarization =
        (if Parakeet.enDiar inp then apply_diarization m.diar t else []) ∧
      r.diarization = r'.diarization) := by
  constructor
  · intro m m' inp inp' t r r' hd hflag h h'
    have e1 := Kotoba.ok_diarization h
    have e2 := Kotoba.ok_diarization h'
    have e3 : Kotoba.diarizationField m' inp' t = Kotoba.diarizationField m inp t := by
      unfold Kotoba.diarizationField Kotoba.enDiar
      rw [hd, hflag]
    exact ⟨e1, by rw [e1, e2, e3]⟩
  · intro m m' inp inp' t r r' hd hflag h h'
    have e1 := Parakeet.pkOk_diarization h
    have e2 := Parakeet.pkOk_diarization h'
    have e3 : (if Parakeet.enDiar inp' then apply_diarization m'.diar t else []) =
        (if Parakeet.enDiar inp then apply_diarization m.diar t else []) := by
      unfold Parakeet.enDiar
      rw [hd, hflag]
    exact ⟨e1, by rw [e1, e2, e3]⟩

/-- Witness for C5: two concrete kotoba runs, one with a succeeding
denoise stage and one with denoise disabled, produce the same diarization
field. -/
theorem C5_diarization_uses_original_artifact_witness :
    (Kotoba.handler Fixtures.kDenOk Fixtures.kInpAudio "/tmp/audio0.webm").result =
      .ok (Kotoba.successResponse Fixtures.kDenOk Fixtures.kInpAudio
        "/tmp/audio0.webm" ⟨"hello", none⟩) ∧
    (Kotoba.handler Fixtures.kAsrOk Fixtures.kInpNoDen "/tmp/audio0.webm").result =
      .ok (Kotoba.successResponse Fixtures.kAsrOk Fixtures.kInpNoDen
        "/tmp/audio0.webm" ⟨"hello", none⟩) ∧
    (Kotoba.successResponse Fixtures.kDenOk Fixtures.kInpAudio
        "/tmp/audio0.webm" ⟨"hello", none⟩).diarization =
      (Kotoba.successResponse Fixtures.kAsrOk Fixtures.kInpNoDen
        "/tmp/audio0.webm" ⟨"hello", none⟩).diarization := by
  refine ⟨rfl, rfl, ?_⟩
  exact (C5_diarization_uses_original_artifact.1 Fixtures.kDenOk Fixtures.kAsrOk
    Fixtures.kInpAudio Fixtures.kInpNoDen "/tmp/audio0.webm" _ _ rfl rfl rfl rfl).2

/-- C3: when an enabled enhancement stage's internal model raises, the
error is absorbed (the stage returns its input, so the prior current
artifact is retained), the request's result is identical — text, chunks
and flags — to running the same request with that stage disabled, and the
stage's applied flag is false.  Proved for all three kotoba-whisper
stages; for python-server, the failing denoise stage likewise returns its
input unchanged and reports `denoise_applied = false` on success. -/
theorem C3_stage_failure_degrades_not_fails :
    (∀ (m : Kotoba.Models) (inp : Kotoba.JobInput) (t : String),
      (∀ p, m.df p = none) →
      (Kotoba.handler m inp t).result =
        (Kotoba.handler m { inp with enable_denoise := some false } t).result ∧
      ∀ r, (Kotoba.handler m inp t).result = .ok r → r.denoise_applied = false) ∧
    (∀ (m : Kotoba.Models) (inp : Kotoba.JobInput) (t : String),
      (∀ p, m.wpe p = none) →
      (Kotoba.handler m inp t).result =
        (Kotoba.handler m { inp with enable_dereverberation := some false } t).result ∧
      ∀ r, (Kotoba.handler m inp t).result = .ok r → r.dereverb_applied = false) ∧
    (∀ (m : Kotoba.Models) (inp : Kotoba.JobInput) (t : String),
      (∀ p, m.vad p = none) →
      (Kotoba.handler m inp t).result =
        (Kotoba.handler m { inp with enable_vad := some false } t).result ∧
      ∀ r, (Kotoba.handler m inp t).result = .ok r → r.vad_applied = false) ∧
    (∀ (mp : PyServer.Models) (t : String),
      (∀ p, mp.df p = none) →
      PyServer.apply_deepfilter mp.df (PyServer.wavPath t) = PyServer.wavPath t ∧
      ∀ r, (PyServer.transcribe mp t).result = .ok r → r.denoise_applied = false) := by
  refine ⟨?_, ?_, ?_, ?_⟩
  · intro m inp t h
    have hdf : ∀ p, Kotoba.apply_deepfilter m.df p = p := fun p => by
      simp [Kotoba.apply_deepfilter, h]
    have hA1 : Kotoba.audioAfterDenoise m inp t = t := by
      unfold Kotoba.audioAfterDenoise Kotoba.stageStep
      cases Kotoba.enDenoise inp <;> simp [hdf]
    have hA1' :
        Kotoba.audioAfterDenoise m { inp with enable_denoise := some false } t = t :=
      rfl
    have hF : Kotoba.denoiseAppliedVar m inp t = false := by
      unfold Kotoba.denoiseAppliedVar Kotoba.stageStep
      cases Kotoba.enDenoise inp <;> simp [hdf]
    have hB : Kotoba.audioAfterDereverb m inp t =
        Kotoba.audioAfterDereverb m { inp with enable_denoise := some false } t := by
      unfold Kotoba.audioAfterDereverb
      rw [hA1, hA1']
      rfl
    have hG : Kotoba.dereverbAppliedVar m inp t =
        Kotoba.dereverbAppliedVar m { inp with enable_denoise := some false } t := by
      unfold Kotoba.dereverbAppliedVar
      rw [hA1, hA1']
      rfl
    have hC : Kotoba.audioToTranscribe m inp t =
        Kotoba.audioToTranscribe m { inp with enable_denoise := some false } t := by
      unfold Kotoba.audioToTranscribe
      rw [hB]
      rfl
    have hH : Kotoba.vadAppliedVar m inp t =
        Kotoba.vadAppliedVar m { inp with enable_denoise := some false } t := by
      unfold Kotoba.vadAppliedVar
      rw [hB]
      rfl
    refine ⟨Kotoba.result_congr m inp _ t rfl rfl rfl hC ?_, ?_⟩
    · intro a
      unfold Kotoba.successResponse
      rw [hF, hG, hH]
      rfl
    · intro r hr
      obtain ⟨a, _, rfl⟩ := Kotoba.handler_ok hr
      exact hF
  · intro m inp t h
    have hwpe : ∀ p, Kotoba.apply_wpe m.wpe p = p := fun p => by
      simp [Kotoba.apply_wpe, h]
    have hB : Kotoba.audioAfterDereverb m inp t = Kotoba.audioAfterDenoise m inp t := by
      unfold Kotoba.audioAfterDereverb Kotoba.stageStep
      cases Kotoba.enDereverb inp <;> simp [hwpe]
    have hB' : Kotoba.audioAfterDereverb m
        { inp with enable_dereverberation := some false } t =
        Kotoba.audioAfterDenoise m inp t := rfl
    have hG : Kotoba.dereverbAppliedVar m inp t = false := by
      unfold Kotoba.dereverbAppliedVar Kotoba.stageStep
      cases Kotoba.enDereverb inp <;> simp [hwpe]
    have hC : Kotoba.audioToTranscribe m inp t =
        Kotoba.audioToTranscribe m { inp with enable_dereverberation := some false } t := by
      unfold Kotoba.audioToTranscribe
      rw [hB, hB']
      rfl
    have hH : Kotoba.vadAppliedVar m inp t =
        Kotoba.vadAppliedVar m { inp with enable_dereverberation := some false } t := by
      unfold Kotoba.vadAppliedVar
      rw [hB, hB']
      rfl
    refine ⟨Kotoba.result_congr m inp _ t rfl rfl rfl hC ?_, ?_⟩
    · intro a
      unfold Kotoba.successResponse
      rw [hG, hH]
      rfl
    · intro r hr
      obtain ⟨a, _, rfl⟩ := Kotoba.handler_ok hr
      exact hG
  · intro m inp t h
    have havad : ∀ p, Kotoba.apply_vad m.vad p = none := fun p => by
      simp [Kotoba.apply_vad, h]
    have hCa : Kotoba.audioToTranscribe m inp t = Kotoba.audioAfterDereverb m inp t := by
      unfold Kotoba.audioToTranscribe Kotoba.vadStep
      cases Kotoba.enVad inp <;> simp [havad]
    have hCb : Kotoba.audioToTranscribe m { inp with enable_vad := some false } t =
        Kotoba.audioAfterDereverb m inp t := rfl
    have hH : Kotoba.vadAppliedVar m inp t = false := by
      unfold Kotoba.vadAppliedVar Kotoba.vadStep
      cases Kotoba.enVad inp <;> simp [havad]
    have hC : Kotoba.audioToTranscribe m inp t =
        Kotoba.audioToTranscribe m { inp with enable_vad := some false } t := by
      rw [hCa, hCb]
    refine ⟨Kotoba.result_congr m inp _ t rfl rfl rfl hC ?_, ?_⟩
    · intro a
      unfold Kotoba.successResponse
      rw [hH]
      rfl
    · intro r hr
      obtain ⟨a, _, rfl⟩ := Kotoba.handler_ok hr
      exact hH
  · intro mp t h
    have h1 : PyServer.apply_deepfilter mp.df (PyServer.wavPath t) =
        PyServer.wavPath t := by
      simp [PyServer.apply_deepfilter, h]
    refine ⟨h1, ?_⟩
    intro r hr
    obtain ⟨_, info, _, rfl⟩ := PyServer.transcribe_ok hr
    show PyServer.denoiseAppliedVar mp t = false
    unfold PyServer.denoiseAppliedVar PyServer.denoisedVar
    simp [h1]

/-- Witness for C3: at a concrete input where every enhancement model call
raises, the result equals the stage-disabled result for all three stages,
and the python-server denoise stage is the identity. -/
theorem C3_stage_failure_degrades_not_fails_witness :
    (Kotoba.handler Fixtures.kAsrOk Fixtures.kInpAudio "/tmp/audio0.webm").result =
      (Kotoba.handler Fixtures.kAsrOk
        { Fixtures.kInpAudio with enable_denoise := some false } "/tmp/audio0.webm").result ∧
    (Kotoba.handler Fixtures.kAsrOk Fixtures.kInpAudio "/tmp/audio0.webm").result =
      (Kotoba.handler Fixtures.kAsrOk
        { Fixtures.kInpAudio with enable_dereverberation := some false }
        "/tmp/audio0.webm").result ∧
    (Kotoba.handler Fixtures.kAsrOk Fixtures.kInpAudio "/tmp/audio0.webm").result =
      (Kotoba.handler Fixtures.kAsrOk
        { Fixtures.kInpAudio with enable_vad := some false } "/tmp/audio0.webm").result ∧
    PyServer.apply_deepfilter Fixtures.pyDfFail.df
        (PyServer.wavPath "/tmp/audio0.webm") =
      PyServer.wavPath "/tmp/audio0.webm" :=
  ⟨(C3_stage_failure_degrades_not_fails.1 Fixtures.kAsrOk Fixtures.kInpAudio
      "/tmp/audio0.webm" fun _ => rfl).1,
    (C3_stage_failure_degrades_not_fails.2.1 Fixtures.kAsrOk Fixtures.kInpAudio
      "/tmp/audio0.webm" fun _ => rfl).1,
    (C3_stage_failure_degrades_not_fails.2.2.1 Fixtures.kAsrOk Fixtures.kInpAudio
      "/tmp/audio0.webm" fun _ => rfl).1,
    (C3_stage_failure_degrades_not_fails.2.2.2 Fixtures.pyDfFail
      "/tmp/audio0.webm" fun _ => rfl).1⟩

/-- C1 counterexample: in the parakeet handler, a request whose every
enhancement model call fails (so the final artifact is the unchanged
saved input) still responds with `denoise_applied`, `dereverb_applied`
and `vad_applied` all true, because those fields echo the request's
`enable_*` options (handler.py lines 209-211) instead of recording
whether the stage changed the artifact. -/
theorem C1_applied_flags_counterexample :
    (Parakeet.handler Fixtures.pAsrOk Fixtures.pInpAudio "/tmp/audio0.wav").result =
      .ok ⟨"hello", "ja", "parakeet-tdt-0.6b-ja", true, true, true, []⟩ ∧
    Parakeet.currentAfterVad Fixtures.pAsrOk Fixtures.pInpAudio "/tmp/audio0.wav" =
      "/tmp/audio0.wav" :=
  ⟨rfl, rfl⟩

/-- C1 amended: in the kotoba-whisper handler and the python-server
endpoints each `*_applied` flag is true iff the stage ran (was enabled)
and returned an artifact distinct from its input — a failed or no-op
stage reports false; in the parakeet and reazonspeech handlers the flags
instead echo the request's `enable_*` options, so an enabled stage that
fails or leaves the artifact unchanged is still reported as applied. -/
theorem C1_amended_applied_flags :
    (∀ (m : Kotoba.Models) (inp : Kotoba.JobInput) (t : String) (r : Kotoba.Response),
      (Kotoba.handler m inp t).result = .ok r →
      (r.denoise_applied = true ↔
        Kotoba.enDenoise inp = true ∧ Kotoba.apply_deepfilter m.df t ≠ t) ∧
      (r.dereverb_applied = true ↔
        Kotoba.enDereverb inp = true ∧
          Kotoba.apply_wpe m.wpe (Kotoba.audioAfterDenoise m inp t) ≠
            Kotoba.audioAfterDenoise m inp t) ∧
      (r.vad_applied = true ↔
        Kotoba.enVad inp = true ∧
          ∃ p, Kotoba.apply_vad m.vad (Kotoba.audioAfterDereverb m inp t) = some p ∧
            p ≠ Kotoba.audioAfterDereverb m inp t)) ∧
    (∀ (m : PyServer.Models) (t : String) (r : PyServer.Response),
      (PyServer.transcribe m t).result = .ok r →
      (r.denoise_applied = true ↔
        PyServer.apply_deepfilter m.df (PyServer.wavPath t) ≠ PyServer.wavPath t) ∧
      (r.dereverb_applied = true ↔
        PyServer.apply_wpe m.wpe (PyServer.audioAfterDenoise m t) ≠
          PyServer.audioAfterDenoise m t)) ∧
    (∀ (m : Parakeet.Models) (inp : Parakeet.JobInput) (t : String)
      (r : Parakeet.Response),
      (Parakeet.handler m inp t).result = .ok r →
      r.denoise_applied = Parakeet.enDenoise inp ∧
      r.dereverb_applied = Parakeet.enDereverb inp ∧
      r.vad_applied = Parakeet.enVad inp) ∧
    (∀ (m : Reazon.Models) (req : Reazon.TranscribeRequest) (t : String)
      (r : Reazon.Response),
      (Reazon.transcribe m req t).result = .ok r →
      r.denoise_applied = req.enable_denoise ∧
      r.dereverb_applied = req.enable_dereverberation ∧
      r.vad_applied = req.enable_vad) := by
  refine ⟨?_, ?_, ?_, ?_⟩
  · intro m inp t r hr
    obtain ⟨a, _, rfl⟩ := Kotoba.handler_ok hr
    exact ⟨Kotoba.denoiseApplied_iff m inp t, Kotoba.dereverbApplied_iff m inp t,
      Kotoba.vadApplied_iff m inp t⟩
  · intro m t r hr
    obtain ⟨_, info, _, rfl⟩ := PyServer.transcribe_ok hr
    constructor
    · show PyServer.denoiseAppliedVar m t = true ↔ _
      unfold PyServer.denoiseAppliedVar PyServer.denoisedVar
      simp
    · show PyServer.dereverbAppliedVar m t = true ↔ _
      unfold PyServer.dereverbAppliedVar PyServer.dereverbVar
      simp
  · intro m inp t r hr
    obtain ⟨txt, _, rfl⟩ := Parakeet.pkHandler_ok hr
    exact ⟨rfl, rfl, rfl⟩
  · intro m req t r hr
    obtain ⟨txt, _, rfl⟩ := Reazon.rzTranscribe_ok hr
    exact ⟨rfl, rfl, rfl⟩

/-- Witness for C1's amended theorem: a concrete successful kotoba run
with a succeeding denoise model, and a concrete parakeet run. -/
theorem C1_amended_applied_flags_witness :
    ((Kotoba.successResponse Fixtures.kDenOk Fixtures.kInpAudio "/tmp/audio0.webm"
        ⟨"hello", none⟩).denoise_applied = true ↔
      Kotoba.enDenoise Fixtures.kInpAudio = true ∧
        Kotoba.apply_deepfilter Fixtures.kDenOk.df "/tmp/audio0.webm" ≠
          "/tmp/audio0.webm") ∧
    (Parakeet.successResponse Fixtures.pAsrOk Fixtures.pInpAudio "/tmp/audio0.wav"
        "hello").denoise_applied = Parakeet.enDenoise Fixtures.pInpAudio :=
  ⟨(C1_amended_applied_flags.1 Fixtures.kDenOk Fixtures.kInpAudio "/tmp/audio0.webm"
      _ rfl).1,
    (C1_amended_applied_flags.2.2.1 Fixtures.pAsrOk Fixtures.pInpAudio
      "/tmp/audio0.wav" _ rfl).1⟩

/-- C4 counterexample: in the parakeet handler, a silence-only input (the
VAD finds no speech spans, so `apply_vad` returns its input unchanged)
still yields a response with `vad_applied = true`, because the field
echoes `enable_vad`. -/
theorem C4_vad_flag_counterexample :
    Parakeet.apply_vad Fixtures.pVadEmpty.vad "/tmp/audio0.wav" = "/tmp/audio0.wav" ∧
    (Parakeet.handler Fixtures.pVadEmpty Fixtures.pInpAudio "/tmp/audio0.wav").result =
      .ok ⟨"hello", "ja", "parakeet-tdt-0.6b-ja", true, true, true, []⟩ :=
  ⟨rfl, rfl⟩

/-- C4 amended: when the VAD detects no speech spans, the stage returns
its input artifact unchanged (never an empty buffer) in both the
kotoba-whisper and parakeet variants; the kotoba-whisper response then
reports `vad_applied = false`, while the parakeet response reports
`vad_applied = enable_vad` regardless. -/
theorem C4_amended_vad_no_speech :
    (∀ (vadF : String → Option (List (Nat × Nat))) (p : String),
      vadF p = some [] → Kotoba.apply_vad vadF p = some p) ∧
    (∀ (m : Kotoba.Models) (inp : Kotoba.JobInput) (t : String) (r : Kotoba.Response),
      (∀ q, m.vad q = some []) →
      (Kotoba.handler m inp t).result = .ok r → r.vad_applied = false) ∧
    (∀ (vadF : String → Option (List (Nat × Nat))) (p : String),
      vadF p = some [] → Parakeet.apply_vad vadF p = p) ∧
    (∀ (m : Parakeet.Models) (inp : Parakeet.JobInput) (t : String)
      (r : Parakeet.Response),
      (∀ q, m.vad q = some []) →
      (Parakeet.handler m inp t).result = .ok r →
      r.vad_applied = Parakeet.enVad inp) := by
  refine ⟨?_, ?_, ?_, ?_⟩
  · intro vadF p hp
    simp [Kotoba.apply_vad, hp]
  · intro m inp t r h hr
    obtain ⟨a, _, rfl⟩ := Kotoba.handler_ok hr
    show Kotoba.vadAppliedVar m inp t = false
    unfold Kotoba.vadAppliedVar Kotoba.vadStep
    cases Kotoba.enVad inp <;> simp [Kotoba.apply_vad, h]
  · intro vadF p hp
    simp [Parakeet.apply_vad, hp]
  · intro m inp t r h hr
    obtain ⟨txt, _, rfl⟩ := Parakeet.pkHandler_ok hr
    rfl

/-- Witness for C4's amended theorem at a concrete silence-only run. -/
theorem C4_amended_vad_no_speech_witness :
    Kotoba.apply_vad (fun _ => some []) "/tmp/audio0.webm" = some "/tmp/audio0.webm" ∧
    (Kotoba.successResponse Fixtures.kVadEmpty Fixtures.kInpAudio "/tmp/audio0.webm"
      ⟨"hello", none⟩).vad_applied = false :=
  ⟨C4_amended_vad_no_speech.1 (fun _ => some []) "/tmp/audio0.webm" rfl,
    C4_amended_vad_no_speech.2.1 Fixtures.kVadEmpty Fixtures.kInpAudio
      "/tmp/audio0.webm" _ (fun _ => rfl) rfl⟩

/-- C2 counterexample: on the python-server endpoint, when the
transcription call raises after the denoise stage created an artifact,
the `except` path (server.py lines 305-313) unlinks only the saved input
file: the normalized WAV and the denoised artifact are created but never
deleted, so they survive the request. -/
theorem C2_cleanup_counterexample :
    "/tmp/audio0.wav" ∈ (PyServer.transcribe Fixtures.pyLeak "/tmp/audio0.webm").created ∧
    "/tmp/audio0.wav" ∉ (PyServer.transcribe Fixtures.pyLeak "/tmp/audio0.webm").removed ∧
    (PyServer.transcribe Fixtures.pyLeak "/tmp/audio0.webm").remaining =
      ["/tmp/audio0.wav", "/tmp/audio0_denoised.wav"] := by
  decide

/-- C2 amended: in the kotoba-whisper handler every artifact created
during the request is deleted exactly once by the `finally` block on every
exit path (success, ASR failure, or rejected input); in the python-server
endpoint this holds on the success path, but an exception raised after
intermediate artifacts exist deletes only the saved input (see the
counterexample).  Stated at the canonical temp path issued by
`tempfile.NamedTemporaryFile` (a dot-free stem plus the suffix). -/
theorem C2_amended_cleanup_exactly_once :
    (∀ (m : Kotoba.Models) (inp : Kotoba.JobInput),
      (Kotoba.handler m inp "/tmp/audio0.webm").created.Nodup ∧
      (Kotoba.handler m inp "/tmp/audio0.webm").removed.Perm
        (Kotoba.handler m inp "/tmp/audio0.webm").created ∧
      (Kotoba.handler m inp "/tmp/audio0.webm").remaining = []) ∧
    (∀ (m : PyServer.Models) (r : PyServer.Response),
      (PyServer.transcribe m "/tmp/audio0.webm").result = .ok r →
      (PyServer.transcribe m "/tmp/audio0.webm").created.Nodup ∧
      (PyServer.transcribe m "/tmp/audio0.webm").removed.Perm
        (PyServer.transcribe m "/tmp/audio0.webm").created ∧
      (PyServer.transcribe m "/tmp/audio0.webm").remaining = []) := by
  constructor
  · intro m inp
    by_cases hA : inp.audio_base64 = none ∨ inp.audio_base64 = some ""
    · unfold Kotoba.handler
      rw [if_pos hA]
      exact ⟨List.nodup_nil, List.Perm.refl _, rfl⟩
    · obtain ⟨hcr, hrm, hre⟩ :=
        @Kotoba.handler_files m inp "/tmp/audio0.webm" hA
      rw [hcr, hrm, hre]
      rcases Kotoba.denoiseObs m inp "/tmp/audio0.webm" with
          ⟨ha, hp, hw⟩ | ⟨ha, hp, hw⟩ | ⟨ha, hp, hw⟩ <;>
        rcases Kotoba.dereverbObs m inp "/tmp/audio0.webm" with
          ⟨hb, hq, hx⟩ | ⟨hb, hq, hx⟩ | ⟨hb, hq, hx⟩ <;>
        rcases Kotoba.vadObs m inp "/tmp/audio0.webm" with
          ⟨hc, hr, hy⟩ | ⟨hc, hr, hy⟩ | ⟨hc, hr, hy⟩ <;>
        simp only [Kotoba.createdFiles, Kotoba.runCleanup, hw, hx, hy, hp, hq, hr] <;>
        (try simp only [ha, hb]) <;>
        decide
  · intro m r hok
    obtain ⟨hcr, hrm, hre⟩ := PyServer.transcribe_ok_files hok
    rw [hcr, hrm, hre]
    rcases PyServer.denObs m "/tmp/audio0.webm" with ⟨hd, hw⟩ | ⟨hd, hw⟩ <;>
      rcases PyServer.wpeObs m "/tmp/audio0.webm" with ⟨he, hx⟩ | ⟨he, hx⟩ <;>
      simp only [PyServer.createdFiles, PyServer.successCleanup, hw, hx, hd, he] <;>
      (try simp only [PyServer.audioAfterDenoise, hd]) <;>
      decide

/-- Witness for C2's amended theorem at concrete runs. -/
theorem C2_amended_cleanup_exactly_once_witness :
    (Kotoba.handler Fixtures.kDenOk Fixtures.kInpAudio "/tmp/audio0.webm").removed.Perm
      (Kotoba.handler Fixtures.kDenOk Fixtures.kInpAudio "/tmp/audio0.webm").created ∧
    (PyServer.transcribe Fixtures.pyDfFail "/tmp/audio0.webm").remaining = [] :=
  ⟨(C2_amended_cleanup_exactly_once.1 Fixtures.kDenOk Fixtures.kInpAudio).2.1,
    (C2_amended_cleanup_exactly_once.2 Fixtures.pyDfFail _ rfl).2.2⟩

end STT
